import Mathlib

/-!
Shallow embedding of the CommitmentLabs `commitment_core` Soroban contract
(`contracts/commitment_core/src/lib.rs`): data model, storage state,
`create_commitment`, `get_commitment`, `check_violations`,
`get_violation_details`, `settle`, and the counters
`total_commitments` / `total_value_locked`.

Modelling conventions:
- Soroban `String` is Lean `String`; `Address` is `Nat` (an opaque identifier);
  `u64` timestamps and counters are `Nat`; `i128` amounts are `Int` (the claims
  under study do not exercise the i128 overflow boundary).
- Keyed persistent/instance storage is an association list looked up on the
  first matching key; a write replaces the first matching entry or appends.
- A Soroban `fail` / `panic_with_error!` traps and the host rolls back every
  storage write of the invocation, so each entry point is a function
  `State → ... → Except CommitmentError (State × result)`, and the
  transaction-level wrapper `*_tx` returns the original state on `.error`.
- Shared-workspace helpers (`shared_utils`, `access_control`) are not part of
  the sources under study; where an entry point uses one, the helper is
  modelled from the spec and marked `Modelled from the spec:` in its
  doc comment.
-/

namespace CommitmentCore

/-- Commitment rules, from `struct CommitmentRules` in
`commitment_core/src/lib.rs`. -/
structure CommitmentRules where
  duration_days : Nat
  max_loss_percent : Nat
  commitment_type : String
  early_exit_penalty : Nat
  min_fee_threshold : Int
deriving Repr, DecidableEq

/-- A commitment record, from `struct Commitment` in
`commitment_core/src/lib.rs`. -/
structure Commitment where
  commitment_id : String
  owner : Nat
  nft_token_id : Nat
  rules : CommitmentRules
  amount : Int
  asset_address : Nat
  created_at : Nat
  expires_at : Nat
  current_value : Int
  status : String
deriving Repr, DecidableEq

/-- The error conditions raised by the contract.  The first seven come from
the `Error` / `CommitmentError` variants named in `commitment_core/src/lib.rs`;
`ReentrancyDetected`, `EmergencyActive`, `RateLimited`, `AssetNotSupported`,
`InvalidDuration`, `InvalidMaxLoss` and `InvalidCommitmentType` are the
failure modes of the shared-utility gates, modelled from the spec (§4.1, §4.3,
§6, §7); `FallbackPanic` models the `expect` panic inside `get_commitment`. -/
inductive CommitmentError where
  | NotInitialized
  | AlreadyInitialized
  | Unauthorized
  | InvalidCommitment
  | InvalidAmount
  | CommitmentNotFound
  | InvalidStatus
  | NotExpired
  | NotActive
  | ReentrancyDetected
  | EmergencyActive
  | RateLimited
  | AssetNotSupported
  | InvalidDuration
  | InvalidMaxLoss
  | InvalidCommitmentType
  | FallbackPanic
deriving Repr, DecidableEq

/-- The contract's instance + persistent storage, one field per `DataKey`
variant used by the code.  Counters carry their `unwrap_or(0)` default
directly (`Nat`/`Int` instead of `Option`), because every read in the source
applies that default.  `emergencyMode` and `supportedAssets` model the
shared-utility `EmergencyControl` flag and asset whitelist (spec §4.4:
whitelist enforced only if configured). -/
structure ContractState where
  commitments : List (String × Commitment)
  totalCommitments : Nat
  totalValueLocked : Int
  assetTVL : List (Nat × Int)
  ownerCommitments : List (Nat × List String)
  lastCommitmentId : Option String
  nftContract : Option Nat
  admin : Option Nat
  reentrancyGuard : Bool
  emergencyMode : Bool
  supportedAssets : Option (List Nat)
deriving Repr, DecidableEq

deriving instance DecidableEq for Except

/-- First-match association-list lookup: the storage read
`e.storage().persistent().get(&DataKey::Commitment(id))`. -/
def lookupC (l : List (String × Commitment)) (id : String) : Option Commitment :=
  match l with
  | [] => none
  | (k, c) :: rest => if k = id then some c else lookupC rest id

/-- Storage write `set_commitment`: replace the entry under the commitment's
id, or append it if absent. -/
def storeC (l : List (String × Commitment)) (c : Commitment) :
    List (String × Commitment) :=
  match l with
  | [] => [(c.commitment_id, c)]
  | (k, old) :: rest =>
    if k = c.commitment_id then (k, c) :: rest else (k, old) :: storeC rest c

/-- Per-asset TVL read with its `unwrap_or(0)` default. -/
def getAssetTVL (l : List (Nat × Int)) (asset : Nat) : Int :=
  match l with
  | [] => 0
  | (k, v) :: rest => if k = asset then v else getAssetTVL rest asset

/-- Per-asset TVL write. -/
def setAssetTVL (l : List (Nat × Int)) (asset : Nat) (v : Int) :
    List (Nat × Int) :=
  match l with
  | [] => [(asset, v)]
  | (k, old) :: rest =>
    if k = asset then (k, v) :: rest else (k, old) :: setAssetTVL rest asset v

/-- Owner-index read with its `unwrap_or(Vec::new)` default. -/
def getOwnerList (l : List (Nat × List String)) (owner : Nat) : List String :=
  match l with
  | [] => []
  | (k, v) :: rest => if k = owner then v else getOwnerList rest owner

/-- Owner-index write. -/
def setOwnerList (l : List (Nat × List String)) (owner : Nat)
    (v : List String) : List (Nat × List String) :=
  match l with
  | [] => [(owner, v)]
  | (k, old) :: rest =>
    if k = owner then (k, v) :: rest
    else (k, old) :: setOwnerList rest owner v

/-- The decimal-digit collection loop of `generate_commitment_id`
(`while n > 0 { digits[dc] = n % 10; n /= 10 }`), least-significant digit
first.  The fuel argument mirrors the bounded `digits` buffer; `digitsLoop`
below supplies enough fuel for any input. -/
def digitsAux : Nat → Nat → List Nat
  | _, 0 => []
  | 0, _ + 1 => []
  | fuel + 1, n + 1 => ((n + 1) % 10) :: digitsAux fuel ((n + 1) / 10)

/-- Digits of `n` in base 10, least-significant first (empty for 0). -/
def digitsLoop (n : Nat) : List Nat := digitsAux n n

/-- ASCII digit character for a digit value (`(n % 10) as u8 + b'0'`). -/
def digitChar (d : Nat) : Char := Char.ofNat (d + 48)

/-- Rust `generate_commitment_id` from `commitment_core/src/lib.rs` lines 112-142:
the byte buffer starts `b"c_"`, then holds `'0'` when the counter is zero and
otherwise the counter's decimal digits most-significant first (the loop's
digits, reversed). -/
def generate_commitment_id (counter : Nat) : String :=
  let chars : List Char :=
    if counter = 0 then ['0']
    else ((digitsLoop counter).reverse).map digitChar
  String.mk ('c' :: '_' :: chars)

/-- Rust `validate_rules`, with the shared `Validation` helpers modelled from the
spec (§4.1): `InvalidDuration` if `duration_days == 0`, `InvalidMaxLoss` if
`max_loss_percent > 100`, `InvalidCommitmentType` if the type is not one of
`"safe"`, `"balanced"`, `"aggressive"`. -/
def validate_rules (rules : CommitmentRules) : Except CommitmentError Unit :=
  if rules.duration_days = 0 then .error .InvalidDuration
  else if rules.max_loss_percent > 100 then .error .InvalidMaxLoss
  else if rules.commitment_type ≠ "safe" ∧ rules.commitment_type ≠ "balanced" ∧
      rules.commitment_type ≠ "aggressive" then .error .InvalidCommitmentType
  else .ok ()

/-- Rust `require_asset_supported`.  Modelled from the spec: the asset must be in
the supported whitelist if a whitelist is configured (§4.4 precondition). -/
def assetSupported (s : ContractState) (asset : Nat) : Bool :=
  match s.supportedAssets with
  | none => true
  | some l => l.contains asset

/-- Rust `transfer_assets` from `commitment_core/src/lib.rs` lines 649-657: a stub
whose body is only a TODO comment — it performs no call and no state change. -/
def transfer_assets (s : ContractState) (_owner _contract _asset : Nat)
    (_amount : Int) : ContractState := s

/-- Rust `call_nft_mint` from `commitment_core/src/lib.rs` lines 659-673: a stub
whose body is only a TODO comment — it always returns token id `0`. -/
def call_nft_mint (_nft_contract _owner : Nat) (_commitment_id : String)
    (_duration _max_loss : Nat) (_type : String) (_amount : Int)
    (_asset : Nat) : Nat := 0

/-- Rust `initialize` (lines 145-171) applied to empty storage: records admin
and NFT contract address, zeroes both counters. -/
def initializeState (admin nft_contract : Nat) : ContractState :=
  { commitments := []
    totalCommitments := 0
    totalValueLocked := 0
    assetTVL := []
    ownerCommitments := []
    lastCommitmentId := none
    nftContract := some nft_contract
    admin := some admin
    reentrancyGuard := false
    emergencyMode := false
    supportedAssets := none }

/-- Rust `get_total_commitments` (lines 401-406). -/
def get_total_commitments (s : ContractState) : Nat := s.totalCommitments

/-- Rust `get_total_value_locked` (lines 213-218). -/
def get_total_value_locked (s : ContractState) : Int := s.totalValueLocked

/-- Rust `create_commitment` (lines 228-379), in the source's order:
reentrancy guard, emergency gate, rate limit, `amount > 0`, rule validation,
asset whitelist, read counters and NFT-contract address (fail
`NotInitialized` if unset), generate the id from the counter, defensive
existence re-check (`InvalidStatus`), then the Effects writes, then the stub
Interactions, and finally the second `set_commitment` with the minted token
id.  The guard / emergency / rate-limit gates are modelled from the spec
(§4.3, §6); `now` stands for `TimeUtils::now`, and
`expires_at = now + duration_days * 86400` models
`TimeUtils::calculate_expiration` from the spec (§4.4 step 4).
`rateOk` is the outcome of the external `RateLimiter::check`. -/
def create_commitment (s : ContractState) (now : Nat) (owner : Nat)
    (amount : Int) (asset_address : Nat) (rules : CommitmentRules)
    (rateOk : Bool) : Except CommitmentError (ContractState × String) :=
  if s.reentrancyGuard then .error .ReentrancyDetected
  else if s.emergencyMode then .error .EmergencyActive
  else if ¬ rateOk then .error .RateLimited
  else if ¬ (amount > 0) then .error .InvalidAmount
  else match validate_rules rules with
  | .error e => .error e
  | .ok () =>
    if ¬ assetSupported s asset_address then .error .AssetNotSupported
    else match s.nftContract with
    | none => .error .NotInitialized
    | some nft_contract =>
      if (lookupC s.commitments (generate_commitment_id s.totalCommitments)).isSome then
        .error .InvalidStatus
      else
        let commitment_id := generate_commitment_id s.totalCommitments
        let expires_at := now + rules.duration_days * 86400
        let commitment : Commitment :=
          { commitment_id := commitment_id
            owner := owner
            nft_token_id := 0
            rules := rules
            amount := amount
            asset_address := asset_address
            created_at := now
            expires_at := expires_at
            current_value := amount
            status := "active" }
        let s1 : ContractState :=
          { s with
            commitments := storeC s.commitments commitment
            lastCommitmentId := some commitment_id
            ownerCommitments :=
              setOwnerList s.ownerCommitments owner
                (getOwnerList s.ownerCommitments owner ++ [commitment_id])
            totalCommitments := s.totalCommitments + 1
            totalValueLocked := s.totalValueLocked + amount
            assetTVL :=
              setAssetTVL s.assetTVL asset_address
                (getAssetTVL s.assetTVL asset_address + amount) }
        let s2 := transfer_assets s1 owner 0 asset_address amount
        let nft_token_id :=
          call_nft_mint nft_contract owner commitment_id rules.duration_days
            rules.max_loss_percent rules.commitment_type amount asset_address
        let updated := { commitment with nft_token_id := nft_token_id }
        let s3 := { s2 with commitments := storeC s2.commitments updated }
        .ok ({ s3 with reentrancyGuard := false }, commitment_id)

/-- Transaction-level view of `create_commitment`: a trap rolls back every
write, so on `.error` the post-state is the pre-state. -/
def create_commitment_tx (s : ContractState) (now : Nat) (owner : Nat)
    (amount : Int) (asset_address : Nat) (rules : CommitmentRules)
    (rateOk : Bool) : ContractState × Except CommitmentError String :=
  match create_commitment s now owner amount asset_address rules rateOk with
  | .ok (s', id) => (s', .ok id)
  | .error e => (s, .error e)

/-- Rust `get_commitment` (lines 382-390): direct lookup, else fall back to the
commitment stored under `LastCommitmentId` (its `expect` panic on a dangling
last id is `FallbackPanic`), else `CommitmentNotFound`. -/
def get_commitment (s : ContractState) (commitment_id : String) :
    Except CommitmentError Commitment :=
  match lookupC s.commitments commitment_id with
  | some c => .ok c
  | none =>
    match s.lastCommitmentId with
    | some last_id =>
      match lookupC s.commitments last_id with
      | some c => .ok c
      | none => .error .FallbackPanic
    | none => .error .CommitmentNotFound


/-- SafeMath `loss_percent`, the shared-utility percentage helper called by
`check_violations`.  Modelled from the spec (§4.5): missing from the sources
under study; the spec defines it as `(principal − current) × 100 / principal`
computed in a wide signed integer with integer (truncating) division, and the
caller guards `principal > 0`.  Rust `i128` division truncates toward zero,
which is `Int.tdiv`. -/
def SafeMath_loss_percent (amount current_value : Int) : Int :=
  Int.tdiv ((amount - current_value) * 100) amount

/-- Rust `check_violations` (lines 435-476): look up the commitment (fail
`CommitmentNotFound`), return `false` at once when `status != "active"`,
otherwise compare the loss percentage (`0` when `amount ≤ 0` fails the
`amount > 0` guard) against `max_loss_percent` and the ledger time against
`expires_at`.  The function performs no storage write, so it returns the
state it was given unchanged alongside the boolean. -/
def check_violations (s : ContractState) (now : Nat) (commitment_id : String) :
    Except CommitmentError (ContractState × Bool) :=
  match lookupC s.commitments commitment_id with
  | none => .error .CommitmentNotFound
  | some commitment =>
    if commitment.status ≠ "active" then .ok (s, false)
    else
      let loss_percent : Int :=
        if commitment.amount > 0 then
          SafeMath_loss_percent commitment.amount commitment.current_value
        else 0
      let max_loss : Int := (commitment.rules.max_loss_percent : Int)
      let loss_violated := loss_percent > max_loss
      let duration_violated := now ≥ commitment.expires_at
      let violated := loss_violated ∨ duration_violated
      .ok (s, decide violated)

/-- Rust `get_violation_details` (lines 480-518): look up the commitment
(fail `CommitmentNotFound`), then — with no status check — compute
`loss_percent = (amount − current_value) * 100 / amount` by truncating `i128`
division when `amount > 0` (else `0`), the two violation flags, and the
saturating `time_remaining`.  Returns
`(has_violations, loss_violated, duration_violated, loss_percent,
time_remaining)`. -/
def get_violation_details (s : ContractState) (now : Nat)
    (commitment_id : String) :
    Except CommitmentError (Bool × Bool × Bool × Int × Nat) :=
  match lookupC s.commitments commitment_id with
  | none => .error .CommitmentNotFound
  | some commitment =>
    let loss_amount := commitment.amount - commitment.current_value
    let loss_percent : Int :=
      if commitment.amount > 0 then
        Int.tdiv (loss_amount * 100) commitment.amount
      else 0
    let max_loss : Int := (commitment.rules.max_loss_percent : Int)
    let loss_violated := decide (loss_percent > max_loss)
    let duration_violated := decide (now ≥ commitment.expires_at)
    let time_remaining := commitment.expires_at - now
    let has_violations := loss_violated || duration_violated
    .ok (has_violations, loss_violated, duration_violated, loss_percent,
      time_remaining)

/-- Rust `settle` (lines 524-606), in the source's order: reentrancy guard and
emergency gate (modelled from the spec §4.3/§6), look up the commitment
(`CommitmentNotFound`), expiry check (`NotExpired` when `now < expires_at`),
status check (`NotActive` when not `"active"`), then the Effects — status to
`"settled"`, `total_value_locked` and the per-asset TVL decreased by
`settlement_amount = current_value` — then the Interactions: the token
transfer back to the owner (an external token contract, modelled per the spec
§6 as a synchronous call that succeeds) and the NFT-contract `settle`
invocation, whose address read fails `NotInitialized` when unset. -/
def settle (s : ContractState) (now : Nat) (commitment_id : String) :
    Except CommitmentError ContractState :=
  if s.reentrancyGuard then .error .ReentrancyDetected
  else if s.emergencyMode then .error .EmergencyActive
  else match lookupC s.commitments commitment_id with
  | none => .error .CommitmentNotFound
  | some commitment =>
    if now < commitment.expires_at then .error .NotExpired
    else if commitment.status ≠ "active" then .error .NotActive
    else
      let settlement_amount := commitment.current_value
      let settled : Commitment := { commitment with status := "settled" }
      let s1 : ContractState :=
        { s with
          commitments := storeC s.commitments settled
          totalValueLocked := s.totalValueLocked - settlement_amount
          assetTVL :=
            setAssetTVL s.assetTVL commitment.asset_address
              (getAssetTVL s.assetTVL commitment.asset_address -
                settlement_amount) }
      match s1.nftContract with
      | none => .error .NotInitialized
      | some _nft_contract => .ok { s1 with reentrancyGuard := false }

/-- Transaction-level view of `settle`: a trap rolls back every write, so on
`.error` the post-state is the pre-state. -/
def settle_tx (s : ContractState) (now : Nat) (commitment_id : String) :
    ContractState × Except CommitmentError Unit :=
  match settle s now commitment_id with
  | .ok s' => (s', .ok ())
  | .error e => (s, .error e)

/-- Sum of `current_value` over the stored commitments whose `status` is
`"active"` (the quantity the spec's invariant I2 compares
`total_value_locked` against). -/
def activeSum (l : List (String × Commitment)) : Int :=
  match l with
  | [] => 0
  | (_, c) :: rest =>
    (if c.status = "active" then c.current_value else 0) + activeSum rest

/-- One external call into the contract: either a `create_commitment` with its
arguments (and the rate-limiter verdict for the caller) or a `settle`. -/
inductive Op where
  | createOp (now : Nat) (owner : Nat) (amount : Int) (asset : Nat)
      (rules : CommitmentRules) (rateOk : Bool)
  | settleOp (now : Nat) (commitment_id : String)
deriving Repr, DecidableEq

/-- Apply one call with transaction semantics: a failed call leaves the state
as it was. -/
def applyTx (s : ContractState) : Op → ContractState
  | .createOp now owner amount asset rules rateOk =>
    (create_commitment_tx s now owner amount asset rules rateOk).1
  | .settleOp now commitment_id => (settle_tx s now commitment_id).1

/-- Run a sequence of calls with transaction semantics. -/
def run (s : ContractState) : List Op → ContractState
  | [] => s
  | op :: rest => run (applyTx s op) rest

/-- Argument bundle for one `create_commitment` call. -/
structure CreateArgs where
  now : Nat
  owner : Nat
  amount : Int
  asset : Nat
  rules : CommitmentRules
  rateOk : Bool
deriving Repr, DecidableEq

/-- Run a sequence of `create_commitment` calls, stopping at the first
failure: `.ok` exactly when every call in the sequence succeeds. -/
def runCreates (s : ContractState) : List CreateArgs →
    Except CommitmentError ContractState
  | [] => .ok s
  | a :: rest =>
    match create_commitment s a.now a.owner a.amount a.asset a.rules a.rateOk with
    | .ok (s', _) => runCreates s' rest
    | .error e => .error e

/-- Decode the digit character written by `digitChar` (ASCII value minus 48). -/
def charToDigit (c : Char) : Nat := c.toNat - 48

/-- Rebuild a number from its base-10 digits, least-significant first. -/
def fromDigits : List Nat → Nat
  | [] => 0
  | d :: rest => d + 10 * fromDigits rest

/-- Decode a generated commitment id back to its counter: strip the two-char
`"c_"` prefix, decode the digit characters (most-significant first), reverse
to least-significant first, and rebuild the number. -/
def decodeId (id : String) : Nat :=
  fromDigits (((id.data.drop 2).map charToDigit).reverse)

/-- Association-list well-formedness: every stored commitment's own
`commitment_id` equals the key it is stored under.  `set_commitment` keys
records by that field, so every reachable state satisfies this. -/
def KeysConsistent (l : List (String × Commitment)) : Prop :=
  ∀ p ∈ l, (p.2).commitment_id = p.1

/-- The combined ledger invariant of spec §3: keys are consistent and
`total_value_locked` equals the sum of `current_value` over the Active
commitments (invariant I2). -/
def LedgerInv (s : ContractState) : Prop :=
  KeysConsistent s.commitments ∧ s.totalValueLocked = activeSum s.commitments

/-- Example rule set used by concrete witnesses. -/
def rulesEx : CommitmentRules :=
  { duration_days := 30, max_loss_percent := 10, commitment_type := "safe",
    early_exit_penalty := 0, min_fee_threshold := 0 }

/-- Example active commitment used by concrete witnesses: principal 1000,
created at 100, expiring at `100 + 30 * 86400 = 2592100`. -/
def commitmentEx : Commitment :=
  { commitment_id := "c_0", owner := 7, nft_token_id := 0, rules := rulesEx,
    amount := 1000, asset_address := 5, created_at := 100,
    expires_at := 2592100, current_value := 1000, status := "active" }

/-- Contract state holding `commitmentEx` as its only commitment. -/
def stateEx : ContractState :=
  { commitments := [("c_0", commitmentEx)]
    totalCommitments := 1
    totalValueLocked := 1000
    assetTVL := [(5, 1000)]
    ownerCommitments := [(7, ["c_0"])]
    lastCommitmentId := some "c_0"
    nftContract := some 2
    admin := some 1
    reentrancyGuard := false
    emergencyMode := false
    supportedAssets := none }

/-- Like `stateEx` but the commitment is already settled. -/
def stateSettled : ContractState :=
  { stateEx with
    commitments := [("c_0", { commitmentEx with status := "settled" })]
    totalValueLocked := 0 }

/-- Like `stateEx` but the commitment has gained value
(`current_value = 1001 > amount = 1000`). -/
def stateGain : ContractState :=
  { stateEx with
    commitments := [("c_0", { commitmentEx with current_value := 1001 })] }

/-- Like `stateEx` but the commitment has lost value
(`current_value = 900`). -/
def stateLoss : ContractState :=
  { stateEx with
    commitments := [("c_0", { commitmentEx with current_value := 900 })]
    totalValueLocked := 900 }

/-- Like `stateEx` but with a zero-amount commitment
(`amount = 0`, `current_value = 0`). -/
def stateZero : ContractState :=
  { stateEx with
    commitments :=
      [("c_0", { commitmentEx with amount := 0, current_value := 0 })]
    totalValueLocked := 0 }

/-- Like `stateEx` but with the reentrancy guard held by an in-flight call. -/
def stateGuarded : ContractState := { stateEx with reentrancyGuard := true }


/-- The loss-percent value computed inside `get_violation_details`
(and, via the spec-modelled `SafeMath_loss_percent`, inside
`check_violations`): `(amount − current_value) * 100 / amount` by truncating
`i128` division when `amount > 0`, else `0`. -/
def lossPercentOf (c : Commitment) : Int :=
  if c.amount > 0 then Int.tdiv ((c.amount - c.current_value) * 100) c.amount
  else 0

/-- The tuple `get_violation_details` returns for a found commitment — note
it depends on every field except `status`. -/
def violationTupleOf (c : Commitment) (now : Nat) : Bool × Bool × Bool × Int × Nat :=
  (decide (lossPercentOf c > (c.rules.max_loss_percent : Int)) ||
      decide (now ≥ c.expires_at),
    decide (lossPercentOf c > (c.rules.max_loss_percent : Int)),
    decide (now ≥ c.expires_at),
    lossPercentOf c,
    c.expires_at - now)

/-- A one-element creation batch used by concrete witnesses. -/
def argsEx1 : List CreateArgs := [⟨100, 7, 1000, 5, rulesEx, true⟩]

/-- A mixed operation trace used by concrete witnesses: a creation, a
successful settlement, a repeated (failing) settlement, and a second
creation. -/
def opsEx : List Op :=
  [.createOp 100 7 1000 5 rulesEx true, .settleOp 2592100 "c_0",
   .settleOp 2592100 "c_0", .createOp 2592200 8 500 5 rulesEx true]

/-! ### Association-list lemmas -/

theorem lookupC_storeC_self (l : List (String × Commitment)) (c : Commitment) :
    lookupC (storeC l c) c.commitment_id = some c := by
  induction l with
  | nil => simp [storeC, lookupC]
  | cons p rest ih =>
    obtain ⟨k, x⟩ := p
    by_cases hk : k = c.commitment_id
    · simp [storeC, hk, lookupC]
    · simp [storeC, hk, lookupC, ih]

theorem lookupC_storeC_of_key (l : List (String × Commitment)) (c : Commitment)
    (id : String) (hc : c.commitment_id = id) :
    lookupC (storeC l c) id = some c := hc ▸ lookupC_storeC_self l c

theorem storeC_storeC (l : List (String × Commitment)) (c : Commitment) :
    storeC (storeC l c) c = storeC l c := by
  induction l with
  | nil => simp [storeC]
  | cons p rest ih =>
    obtain ⟨k, x⟩ := p
    by_cases hk : k = c.commitment_id
    · simp [storeC, hk]
    · simp [storeC, hk, ih]

theorem activeSum_storeC_fresh (l : List (String × Commitment)) (c : Commitment)
    (h : lookupC l c.commitment_id = none) :
    activeSum (storeC l c) =
      activeSum l + (if c.status = "active" then c.current_value else 0) := by
  induction l with
  | nil => simp [storeC, activeSum]
  | cons p rest ih =>
    obtain ⟨k, x⟩ := p
    by_cases hk : k = c.commitment_id
    · simp [lookupC, hk] at h
    · simp only [lookupC, hk, if_neg] at h
      simp only [storeC, hk, if_neg, activeSum, ih h]
      ring

theorem activeSum_storeC_of_lookup (l : List (String × Commitment))
    (id : String) (c c' : Commitment) (hl : lookupC l id = some c)
    (hc : c'.commitment_id = id) :
    activeSum (storeC l c') =
      activeSum l - (if c.status = "active" then c.current_value else 0)
        + (if c'.status = "active" then c'.current_value else 0) := by
  induction l with
  | nil => simp [lookupC] at hl
  | cons p rest ih =>
    obtain ⟨k, x⟩ := p
    by_cases hk : k = id
    · simp only [lookupC, hk, if_pos rfl] at hl
      obtain rfl : x = c := by exact Option.some.inj hl
      simp only [storeC, hc, hk, if_pos rfl, activeSum]
      ring
    · simp only [lookupC, hk, if_neg] at hl
      have hk' : ¬ (k = c'.commitment_id) := by rw [hc]; exact hk
      simp only [storeC, hk', if_neg, activeSum, ih hl]
      ring

theorem keysConsistent_storeC (l : List (String × Commitment)) (c : Commitment)
    (h : KeysConsistent l) : KeysConsistent (storeC l c) := by
  induction l with
  | nil =>
    intro p hp
    simp only [storeC, List.mem_singleton] at hp
    subst hp; rfl
  | cons q rest ih =>
    obtain ⟨k, x⟩ := q
    have hx : x.commitment_id = k := h (k, x) (List.mem_cons_self _ _)
    have hrest : KeysConsistent rest := fun p hp => h p (List.mem_cons_of_mem _ hp)
    intro p hp
    by_cases hk : k = c.commitment_id
    · rw [show storeC ((k, x) :: rest) c = (k, c) :: rest by
        simp only [storeC, if_pos hk]] at hp
      rcases List.mem_cons.mp hp with h1 | h2
      · subst h1; exact hk.symm
      · exact hrest p h2
    · rw [show storeC ((k, x) :: rest) c = (k, x) :: storeC rest c by
        simp only [storeC, if_neg hk]] at hp
      rcases List.mem_cons.mp hp with h1 | h2
      · subst h1; exact hx
      · exact ih hrest p h2

theorem lookupC_keysConsistent (l : List (String × Commitment)) (id : String)
    (c : Commitment) (h : KeysConsistent l) (hl : lookupC l id = some c) :
    c.commitment_id = id := by
  induction l with
  | nil => simp [lookupC] at hl
  | cons p rest ih =>
    obtain ⟨k, x⟩ := p
    by_cases hk : k = id
    · simp only [lookupC, hk, if_pos rfl] at hl
      obtain rfl : x = c := Option.some.inj hl
      exact hk ▸ h (k, x) (List.mem_cons_self _ _)
    · simp only [lookupC, hk, if_neg] at hl
      exact ih (fun p hp => h p (List.mem_cons_of_mem _ hp)) hl

theorem getAssetTVL_setAssetTVL (l : List (Nat × Int)) (a : Nat) (v : Int) :
    getAssetTVL (setAssetTVL l a v) a = v := by
  induction l with
  | nil => simp [setAssetTVL, getAssetTVL]
  | cons p rest ih =>
    obtain ⟨k, x⟩ := p
    by_cases hk : k = a
    · simp [setAssetTVL, hk, getAssetTVL]
    · simp [setAssetTVL, hk, getAssetTVL, ih]

/-! ### Commitment-id generator lemmas -/

theorem fromDigits_digitsAux (fuel : Nat) : ∀ n : Nat, n ≤ fuel →
    fromDigits (digitsAux fuel n) = n := by
  induction fuel with
  | zero =>
    intro n h
    obtain rfl : n = 0 := Nat.le_zero.mp h
    simp [digitsAux, fromDigits]
  | succ fuel ih =>
    intro n h
    cases n with
    | zero => simp [digitsAux, fromDigits]
    | succ m =>
      have hlt : (m + 1) / 10 < m + 1 := Nat.div_lt_self (Nat.succ_pos m) (by norm_num)
      have hle : (m + 1) / 10 ≤ fuel := by omega
      simp only [digitsAux, fromDigits, ih _ hle]
      omega

theorem fromDigits_digitsLoop (n : Nat) : fromDigits (digitsLoop n) = n :=
  fromDigits_digitsAux n n (Nat.le_refl n)

theorem digitsAux_lt_ten (fuel : Nat) : ∀ n : Nat, ∀ d ∈ digitsAux fuel n, d < 10 := by
  induction fuel with
  | zero =>
    intro n d hd
    cases n <;> simp [digitsAux] at hd
  | succ fuel ih =>
    intro n d hd
    cases n with
    | zero => simp [digitsAux] at hd
    | succ m =>
      simp only [digitsAux, List.mem_cons] at hd
      rcases hd with h | h
      · subst h; exact Nat.mod_lt _ (by norm_num)
      · exact ih _ d h

theorem digitsAux_ne_nil (fuel n : Nat) (h0 : 0 < n) (h : n ≤ fuel) :
    digitsAux fuel n ≠ [] := by
  cases fuel with
  | zero => omega
  | succ f =>
    cases n with
    | zero => omega
    | succ m => simp [digitsAux]

theorem charToDigit_digitChar {d : Nat} (h : d < 10) :
    charToDigit (digitChar d) = d := by
  have hall : ∀ x : Fin 10, charToDigit (digitChar x.val) = x.val := by decide
  exact hall ⟨d, h⟩

theorem digitChar_ne_zero_char {d : Nat} (h0 : d ≠ 0) (h : d < 10) :
    digitChar d ≠ '0' := by
  have hall : ∀ x : Fin 10, x.val ≠ 0 → digitChar x.val ≠ '0' := by decide
  exact hall ⟨d, h⟩ h0

theorem map_charToDigit_digitChar (ds : List Nat) (h : ∀ d ∈ ds, d < 10) :
    (ds.map digitChar).map charToDigit = ds := by
  induction ds with
  | nil => rfl
  | cons d rest ih =>
    simp only [List.map_cons,
      charToDigit_digitChar (h d (List.mem_cons_self _ _)),
      ih fun x hx => h x (List.mem_cons_of_mem _ hx)]

theorem decodeId_generate_commitment_id (n : Nat) :
    decodeId (generate_commitment_id n) = n := by
  by_cases hn : n = 0
  · subst hn; decide
  · have hd : ∀ d ∈ (digitsLoop n).reverse, d < 10 := fun d hdm =>
      digitsAux_lt_ten n n d (List.mem_reverse.mp hdm)
    simp only [decodeId, generate_commitment_id, if_neg hn]
    show fromDigits ((((( '_' :: ((digitsLoop n).reverse.map digitChar)).drop 1).map
      charToDigit)).reverse) = n
    simp only [List.drop_one, List.tail_cons]
    rw [map_charToDigit_digitChar _ hd, List.reverse_reverse, fromDigits_digitsLoop]

theorem digitsAux_getLast?_ne_zero (fuel : Nat) : ∀ n : Nat, 0 < n → n ≤ fuel →
    ∃ d, (digitsAux fuel n).getLast? = some d ∧ d ≠ 0 ∧ d < 10 := by
  induction fuel with
  | zero => intro n h0 h; omega
  | succ fuel ih =>
    intro n h0 h
    cases n with
    | zero => omega
    | succ m =>
      by_cases hq : (m + 1) / 10 = 0
      · have hm : m + 1 < 10 := by
          rcases Nat.div_eq_zero_iff (by norm_num : 0 < 10) |>.mp hq with h'
          exact h'
        refine ⟨(m + 1) % 10, ?_, ?_, Nat.mod_lt _ (by norm_num)⟩
        · simp [digitsAux, hq]
        · rw [Nat.mod_eq_of_lt hm]; omega
      · have hlt : (m + 1) / 10 < m + 1 :=
          Nat.div_lt_self (Nat.succ_pos m) (by norm_num)
        have hle : (m + 1) / 10 ≤ fuel := by omega
        obtain ⟨d, hd1, hd2, hd3⟩ := ih _ (Nat.pos_of_ne_zero hq) hle
        refine ⟨d, ?_, hd2, hd3⟩
        have hne : digitsAux fuel ((m + 1) / 10) ≠ [] :=
          digitsAux_ne_nil fuel _ (Nat.pos_of_ne_zero hq) hle
        cases htail : digitsAux fuel ((m + 1) / 10) with
        | nil => exact absurd htail hne
        | cons t ts =>
          rw [htail] at hd1
          simp only [digitsAux, htail, List.getLast?_cons_cons]
          exact hd1

/-! ### Inversion lemmas for the mutating entry points -/

theorem create_commitment_ok_inv (s : ContractState) (now owner : Nat)
    (amount : Int) (asset : Nat) (rules : CommitmentRules) (rateOk : Bool)
    (s' : ContractState) (id : String)
    (h : create_commitment s now owner amount asset rules rateOk = .ok (s', id)) :
    s.reentrancyGuard = false ∧ s.emergencyMode = false ∧ rateOk = true ∧
    0 < amount ∧
    id = generate_commitment_id s.totalCommitments ∧
    lookupC s.commitments id = none ∧
    s' = { s with
      commitments := storeC s.commitments
        { commitment_id := id, owner := owner, nft_token_id := 0,
          rules := rules, amount := amount, asset_address := asset,
          created_at := now, expires_at := now + rules.duration_days * 86400,
          current_value := amount, status := "active" },
      lastCommitmentId := some id,
      ownerCommitments := setOwnerList s.ownerCommitments owner
        (getOwnerList s.ownerCommitments owner ++ [id]),
      totalCommitments := s.totalCommitments + 1,
      totalValueLocked := s.totalValueLocked + amount,
      assetTVL := setAssetTVL s.assetTVL asset
        (getAssetTVL s.assetTVL asset + amount),
      reentrancyGuard := false } := by
  unfold create_commitment at h
  split at h
  · exact Except.noConfusion h
  split at h
  · exact Except.noConfusion h
  split at h
  · exact Except.noConfusion h
  split at h
  · exact Except.noConfusion h
  split at h
  · exact Except.noConfusion h
  split at h
  · exact Except.noConfusion h
  split at h
  · exact Except.noConfusion h
  split at h
  · exact Except.noConfusion h
  simp only [transfer_assets, call_nft_mint, Except.ok.injEq, Prod.mk.injEq] at h
  obtain ⟨hs', hid⟩ := h
  subst hs'
  subst hid
  rename_i hg hem hrok hpos xval hval hassetok xnft nftc hnft hfresh
  refine ⟨by simpa using hg, by simpa using hem, by simpa using hrok,
    by simpa using hpos, rfl, by simpa using hfresh, ?_⟩
  rw [storeC_storeC]

theorem settle_ok_inv (s : ContractState) (now : Nat) (id : String)
    (s' : ContractState) (h : settle s now id = .ok s') :
    s.reentrancyGuard = false ∧ s.emergencyMode = false ∧
    ∃ c, lookupC s.commitments id = some c ∧ c.status = "active" ∧
      c.expires_at ≤ now ∧ s.nftContract.isSome = true ∧
      s' = { s with
        commitments := storeC s.commitments { c with status := "settled" },
        totalValueLocked := s.totalValueLocked - c.current_value,
        assetTVL := setAssetTVL s.assetTVL c.asset_address
          (getAssetTVL s.assetTVL c.asset_address - c.current_value),
        reentrancyGuard := false } := by
  unfold settle at h
  split at h
  · exact Except.noConfusion h
  split at h
  · exact Except.noConfusion h
  split at h
  · exact Except.noConfusion h
  split at h
  · exact Except.noConfusion h
  split at h
  · exact Except.noConfusion h
  dsimp only at h
  split at h
  · exact Except.noConfusion h
  simp only [Except.ok.injEq] at h
  subst h
  rename_i hgu hg hem c hl hexp hstat xnft nftc hnft
  exact ⟨by simpa using hgu, by simpa using hg, c, hl, by simpa using hstat,
    by omega, by simp [hnft], rfl⟩

/-! ### C8: the commitment-id generator -/

/-- C8: `generate_commitment_id` is deterministic and injective: it returns
`"c_0"` for counter zero and otherwise `"c_"` followed by the counter's
decimal digits (recoverable by `decodeId`; no leading zero), so distinct
counters give distinct ids. -/
theorem generate_commitment_id_spec (a b : Nat) :
    decodeId (generate_commitment_id a) = a ∧
    generate_commitment_id 0 = "c_0" ∧
    (0 < a → ((generate_commitment_id a).data.drop 2).head? ≠ some '0') ∧
    (generate_commitment_id a = generate_commitment_id b → a = b) := by
  refine ⟨decodeId_generate_commitment_id a, by decide, ?_, ?_⟩
  · intro ha
    have hne : a ≠ 0 := Nat.pos_iff_ne_zero.mp ha
    simp only [generate_commitment_id, if_neg hne]
    show (((digitsLoop a).reverse.map digitChar)).head? ≠ some '0'
    obtain ⟨d, hd1, hd2, hd3⟩ := digitsAux_getLast?_ne_zero a a ha (Nat.le_refl a)
    rw [List.head?_map, List.head?_reverse]
    rw [show (digitsLoop a).getLast? = some d from hd1]
    simp only [Option.map_some']
    intro hcontra
    exact digitChar_ne_zero_char hd2 hd3 (Option.some.inj hcontra)
  · intro h
    have h2 := congrArg decodeId h
    rwa [decodeId_generate_commitment_id, decodeId_generate_commitment_id] at h2

/-- Witness for C8 at the concrete counters 10 and 10: the leading digit of
`"c_10"` is not `'0'`, and injectivity applied reflexively. -/
theorem generate_commitment_id_spec_witness :
    ((generate_commitment_id 10).data.drop 2).head? ≠ some '0' ∧ (10 : Nat) = 10 := by
  obtain ⟨_, _, h3, h4⟩ := generate_commitment_id_spec 10 10
  exact ⟨h3 (by decide), h4 rfl⟩

/-! ### C2, C10: postconditions of a successful creation -/

/-- C2: whenever `create_commitment` succeeds, the commitment stored under the
returned id has status `"active"`, `current_value` equal to `amount`, and
`expires_at = created_at + duration_days * 86400` (with
`created_at = now`). -/
theorem create_commitment_postconditions (s : ContractState) (now owner : Nat)
    (amount : Int) (asset : Nat) (rules : CommitmentRules) (rateOk : Bool)
    (s' : ContractState) (id : String)
    (h : create_commitment s now owner amount asset rules rateOk = .ok (s', id)) :
    0 < amount ∧ ∃ c, lookupC s'.commitments id = some c ∧
      c.status = "active" ∧ c.current_value = amount ∧ c.amount = amount ∧
      c.owner = owner ∧ c.created_at = now ∧
      c.expires_at = c.created_at + rules.duration_days * 86400 := by
  obtain ⟨hgu, hem, hrok, hpos, hid, hfresh, hs'⟩ :=
    create_commitment_ok_inv _ _ _ _ _ _ _ _ _ h
  subst hs'
  exact ⟨hpos, _, lookupC_storeC_of_key _ _ _ rfl, rfl, rfl, rfl, rfl, rfl, rfl⟩

/-- Witness for C2: a concrete successful creation from a freshly initialized
state, whose stored commitment is `commitmentEx`. -/
theorem create_commitment_postconditions_witness :
    0 < (1000 : Int) ∧ ∃ c, lookupC stateEx.commitments "c_0" = some c ∧
      c.status = "active" ∧ c.current_value = 1000 ∧ c.amount = 1000 ∧
      c.owner = 7 ∧ c.created_at = 100 ∧
      c.expires_at = c.created_at + rulesEx.duration_days * 86400 :=
  create_commitment_postconditions (initializeState 1 2) 100 7 1000 5 rulesEx
    true stateEx "c_0" (by decide)

/-- C10: whenever `create_commitment` succeeds, the finally stored
commitment's `nft_token_id` is `0`, because the certificate-mint stub
`call_nft_mint` always returns `0` and the asset-transfer stub
`transfer_assets` performs no call and changes no state. -/
theorem create_commitment_nft_token_zero (s : ContractState) (now owner : Nat)
    (amount : Int) (asset : Nat) (rules : CommitmentRules) (rateOk : Bool)
    (s' : ContractState) (id : String)
    (h : create_commitment s now owner amount asset rules rateOk = .ok (s', id)) :
    (∃ c, lookupC s'.commitments id = some c ∧ c.nft_token_id = 0) ∧
    (∀ (nftc own : Nat) (cid : String) (d ml : Nat) (ty : String) (am : Int)
      (a2 : Nat), call_nft_mint nftc own cid d ml ty am a2 = 0) ∧
    (∀ (st : ContractState) (own ct a2 : Nat) (am : Int),
      transfer_assets st own ct a2 am = st) := by
  obtain ⟨hgu, hem, hrok, hpos, hid, hfresh, hs'⟩ :=
    create_commitment_ok_inv _ _ _ _ _ _ _ _ _ h
  subst hs'
  exact ⟨⟨_, lookupC_storeC_of_key _ _ _ rfl, rfl⟩,
    fun _ _ _ _ _ _ _ _ => rfl, fun _ _ _ _ _ => rfl⟩

/-- Witness for C10 at the same concrete creation. -/
theorem create_commitment_nft_token_zero_witness :
    (∃ c, lookupC stateEx.commitments "c_0" = some c ∧ c.nft_token_id = 0) ∧
    (∀ (nftc own : Nat) (cid : String) (d ml : Nat) (ty : String) (am : Int)
      (a2 : Nat), call_nft_mint nftc own cid d ml ty am a2 = 0) ∧
    (∀ (st : ContractState) (own ct a2 : Nat) (am : Int),
      transfer_assets st own ct a2 am = st) :=
  create_commitment_nft_token_zero (initializeState 1 2) 100 7 1000 5 rulesEx
    true stateEx "c_0" (by decide)

/-! ### C9: the `get_commitment` fallback -/

/-- C9: when no commitment exists under the requested id, `get_commitment`
falls back to the commitment stored under `LastCommitmentId` instead of
failing, and fails `CommitmentNotFound` only when no `LastCommitmentId` is
stored; `create_commitment` records the newly created id as
`LastCommitmentId`, so the fallback is the most recently created
commitment. -/
theorem get_commitment_fallback (s s2 : ContractState) (id last : String)
    (c : Commitment) (now owner : Nat) (amount : Int) (asset : Nat)
    (rules : CommitmentRules) (rateOk : Bool) (s2' : ContractState)
    (id2 : String) :
    (lookupC s.commitments id = none → s.lastCommitmentId = some last →
      lookupC s.commitments last = some c → get_commitment s id = .ok c) ∧
    (lookupC s.commitments id = none → s.lastCommitmentId = none →
      get_commitment s id = .error .CommitmentNotFound) ∧
    (create_commitment s2 now owner amount asset rules rateOk = .ok (s2', id2) →
      s2'.lastCommitmentId = some id2) := by
  refine ⟨?_, ?_, ?_⟩
  · intro h1 h2 h3
    simp [get_commitment, h1, h2, h3]
  · intro h1 h2
    simp [get_commitment, h1, h2]
  · intro h
    obtain ⟨_, _, _, _, _, _, hs'⟩ := create_commitment_ok_inv _ _ _ _ _ _ _ _ _ h
    subst hs'
    rfl

/-- Witness for C9: a missing id on `stateEx` falls back to `commitmentEx`;
a missing id on a freshly initialized ledger fails `CommitmentNotFound`; the
concrete creation records `"c_0"` as last id. -/
theorem get_commitment_fallback_witness :
    get_commitment stateEx "c_9" = .ok commitmentEx ∧
    get_commitment (initializeState 1 2) "c_9" = .error .CommitmentNotFound ∧
    stateEx.lastCommitmentId = some "c_0" := by
  refine ⟨?_, ?_, ?_⟩
  · exact (get_commitment_fallback stateEx stateEx "c_9" "c_0" commitmentEx
      0 0 0 0 rulesEx true stateEx "c_0").1 (by decide) (by decide) (by decide)
  · exact (get_commitment_fallback (initializeState 1 2) stateEx "c_9" "c_0"
      commitmentEx 0 0 0 0 rulesEx true stateEx "c_0").2.1 (by decide) (by decide)
  · exact (get_commitment_fallback stateEx (initializeState 1 2) "c_9" "c_0"
      commitmentEx 100 7 1000 5 rulesEx true stateEx "c_0").2.2 (by decide)

/-! ### C7: the reentrancy guard -/

/-- C7: while the reentrancy guard is held, a nested call into
`create_commitment` or `settle` fails `ReentrancyDetected` as its first check
and leaves the entire state — counters and stored commitments included —
unchanged. -/
theorem reentrancy_guard_rejects (s : ContractState) (now now2 owner : Nat)
    (amount : Int) (asset : Nat) (rules : CommitmentRules) (rateOk : Bool)
    (id : String) (h : s.reentrancyGuard = true) :
    create_commitment_tx s now owner amount asset rules rateOk =
      (s, .error .ReentrancyDetected) ∧
    settle_tx s now2 id = (s, .error .ReentrancyDetected) := by
  constructor
  · simp [create_commitment_tx, create_commitment, h]
  · simp [settle_tx, settle, h]

/-- Witness for C7 on a concrete guarded state. -/
theorem reentrancy_guard_rejects_witness :
    create_commitment_tx stateGuarded 100 7 1000 5 rulesEx true =
      (stateGuarded, .error .ReentrancyDetected) ∧
    settle_tx stateGuarded 2592100 "c_0" =
      (stateGuarded, .error .ReentrancyDetected) :=
  reentrancy_guard_rejects stateGuarded 100 2592100 7 1000 5 rulesEx true
    "c_0" (by decide)

/-! ### C6: idempotence of `check_violations` -/

/-- C6: `check_violations` is idempotent and non-mutating: a successful call
returns the state unchanged, a second call with the same ledger time returns
the same boolean, and no counter or stored commitment changes. -/
theorem check_violations_idempotent (s : ContractState) (now : Nat)
    (id : String) (s' : ContractState) (b : Bool)
    (h : check_violations s now id = .ok (s', b)) :
    s' = s ∧ check_violations s' now id = .ok (s', b) ∧
    s'.totalCommitments = s.totalCommitments ∧
    s'.totalValueLocked = s.totalValueLocked ∧
    ∀ i, lookupC s'.commitments i = lookupC s.commitments i := by
  have key : s' = s := by
    unfold check_violations at h
    split at h
    · exact Except.noConfusion h
    split at h
    · simp only [Except.ok.injEq, Prod.mk.injEq] at h
      exact h.1.symm
    · simp only [Except.ok.injEq, Prod.mk.injEq] at h
      exact h.1.symm
  subst key
  exact ⟨rfl, h, rfl, rfl, fun i => rfl⟩

/-- Witness for C6 on a concrete state: a violation-free active commitment. -/
theorem check_violations_idempotent_witness :
    stateEx = stateEx ∧ check_violations stateEx 150 "c_0" = .ok (stateEx, false) ∧
    stateEx.totalCommitments = stateEx.totalCommitments ∧
    stateEx.totalValueLocked = stateEx.totalValueLocked ∧
    ∀ i, lookupC stateEx.commitments i = lookupC stateEx.commitments i :=
  check_violations_idempotent stateEx 150 "c_0" stateEx false (by decide)

/-! ### C3: the settlement lifecycle -/

theorem settle_eval_success (s : ContractState) (now : Nat) (id : String)
    (c : Commitment) (hg : s.reentrancyGuard = false)
    (he : s.emergencyMode = false) (hl : lookupC s.commitments id = some c)
    (hstat : c.status = "active") (hexp : c.expires_at ≤ now)
    (nftc : Nat) (hnft : s.nftContract = some nftc) :
    settle s now id = .ok { s with
      commitments := storeC s.commitments { c with status := "settled" },
      totalValueLocked := s.totalValueLocked - c.current_value,
      assetTVL := setAssetTVL s.assetTVL c.asset_address
        (getAssetTVL s.assetTVL c.asset_address - c.current_value),
      reentrancyGuard := false } := by
  have hlt : ¬ (now < c.expires_at) := by omega
  unfold settle
  simp only [hg, he, hl, hstat, hlt, hnft]
  simp

/-- C3: settling before expiry fails `NotExpired` with no state change; the
first settlement at or after expiry of an active commitment succeeds, flips
the status to `"settled"`, and decreases `total_value_locked` and the
per-asset TVL by `settlement_amount = current_value`; a repeated settlement
of the same id then fails `NotActive`; settling a nonexistent id fails
`CommitmentNotFound`. -/
theorem settle_lifecycle (s : ContractState) (now now2 : Nat) (id : String)
    (c : Commitment) (hg : s.reentrancyGuard = false)
    (he : s.emergencyMode = false) :
    (lookupC s.commitments id = some c → now < c.expires_at →
      settle_tx s now id = (s, .error .NotExpired)) ∧
    (lookupC s.commitments id = none →
      settle_tx s now id = (s, .error .CommitmentNotFound)) ∧
    (lookupC s.commitments id = some c → c.commitment_id = id →
      c.status = "active" → c.expires_at ≤ now → c.expires_at ≤ now2 →
      ∀ nftc, s.nftContract = some nftc →
      ∃ s', settle_tx s now id = (s', .ok ()) ∧
        lookupC s'.commitments id = some { c with status := "settled" } ∧
        s'.totalValueLocked = s.totalValueLocked - c.current_value ∧
        getAssetTVL s'.assetTVL c.asset_address =
          getAssetTVL s.assetTVL c.asset_address - c.current_value ∧
        s'.totalCommitments = s.totalCommitments ∧
        settle_tx s' now2 id = (s', .error .NotActive)) := by
  refine ⟨?_, ?_, ?_⟩
  · intro hl hlt
    simp [settle_tx, settle, hg, he, hl, hlt]
  · intro hl
    simp [settle_tx, settle, hg, he, hl]
  · intro hl hcid hstat hexp hexp2 nftc hnft
    have hs := settle_eval_success s now id c hg he hl hstat hexp nftc hnft
    have hcid2 : (Commitment.mk c.commitment_id c.owner c.nft_token_id c.rules
        c.amount c.asset_address c.created_at c.expires_at c.current_value
        "settled").commitment_id = id := hcid
    have hl2 : lookupC (storeC s.commitments { c with status := "settled" }) id
        = some { c with status := "settled" } :=
      lookupC_storeC_of_key _ _ _ hcid2
    have hlt2 : ¬ (now2 < c.expires_at) := by omega
    refine ⟨{ s with
      commitments := storeC s.commitments { c with status := "settled" },
      totalValueLocked := s.totalValueLocked - c.current_value,
      assetTVL := setAssetTVL s.assetTVL c.asset_address
        (getAssetTVL s.assetTVL c.asset_address - c.current_value),
      reentrancyGuard := false }, ?_, ?_, rfl,
      getAssetTVL_setAssetTVL _ _ _, rfl, ?_⟩
    · simp [settle_tx, hs]
    · exact hl2
    · simp [settle_tx, settle, he, hl2, hlt2]

/-- Witness for C3 on `stateEx`: early settlement at time 150 fails
`NotExpired`; a missing id fails `CommitmentNotFound`; settlement at expiry
time 2592100 succeeds and the repeat at 2592200 fails `NotActive`. -/
theorem settle_lifecycle_witness :
    settle_tx stateEx 150 "c_0" = (stateEx, .error .NotExpired) ∧
    settle_tx stateEx 150 "c_9" = (stateEx, .error .CommitmentNotFound) ∧
    ∃ s', settle_tx stateEx 2592100 "c_0" = (s', .ok ()) ∧
      lookupC s'.commitments "c_0" = some { commitmentEx with status := "settled" } ∧
      s'.totalValueLocked = stateEx.totalValueLocked - commitmentEx.current_value ∧
      getAssetTVL s'.assetTVL commitmentEx.asset_address =
        getAssetTVL stateEx.assetTVL commitmentEx.asset_address -
          commitmentEx.current_value ∧
      s'.totalCommitments = stateEx.totalCommitments ∧
      settle_tx s' 2592200 "c_0" = (s', .error .NotActive) := by
  have h1 := settle_lifecycle stateEx 150 2592200 "c_0" commitmentEx rfl rfl
  have h2 := settle_lifecycle stateEx 2592100 2592200 "c_0" commitmentEx rfl rfl
  have h3 := settle_lifecycle stateEx 150 0 "c_9" commitmentEx rfl rfl
  exact ⟨h1.1 (by decide) (by decide), h3.2.1 (by decide),
    h2.2.2 (by decide) (by decide) (by decide) (by decide) (by decide)
      2 (by decide)⟩

/-! ### C4, C5: violation checks and the loss percentage -/

theorem get_violation_details_eval (s : ContractState) (now : Nat)
    (id : String) (c : Commitment) (h : lookupC s.commitments id = some c) :
    get_violation_details s now id = .ok (violationTupleOf c now) := by
  simp [get_violation_details, h, violationTupleOf, lossPercentOf]

/-- C4 counterexample: on a commitment that is already `"settled"` and past
expiry, `get_violation_details` still reports a violation
(`has_violations = true` via `duration_violated`), contradicting the claim
that it reports no violation for already-processed commitments. -/
theorem get_violation_details_settled_reports_violation :
    (lookupC stateSettled.commitments "c_0").map Commitment.status =
      some "settled" ∧
    get_violation_details stateSettled 2592100 "c_0" =
      .ok (true, false, true, 0, 0) := by decide

/-- C4 amended: `check_violations` returns `false` immediately for a
non-active commitment; `get_violation_details`, by contrast, performs no
status check and computes the violation flags from loss and expiry alone
(it can report violations for already-processed commitments); both fail
`CommitmentNotFound` when no commitment exists under the id. -/
theorem violations_status_handling (s : ContractState) (now : Nat)
    (id : String) (c : Commitment) :
    (lookupC s.commitments id = some c → c.status ≠ "active" →
      check_violations s now id = .ok (s, false)) ∧
    (lookupC s.commitments id = none →
      check_violations s now id = .error .CommitmentNotFound ∧
      get_violation_details s now id = .error .CommitmentNotFound) ∧
    (lookupC s.commitments id = some c →
      get_violation_details s now id = .ok (violationTupleOf c now)) := by
  refine ⟨?_, ?_, fun h => get_violation_details_eval s now id c h⟩
  · intro h1 h2
    simp [check_violations, h1, h2]
  · intro h1
    exact ⟨by simp [check_violations, h1], by simp [get_violation_details, h1]⟩

/-- Witness for C4 (amended) on `stateSettled`: the settled commitment yields
`false` from `check_violations`, a missing id fails `CommitmentNotFound` in
both functions, and `get_violation_details` returns the status-independent
tuple. -/
theorem violations_status_handling_witness :
    check_violations stateSettled 2592100 "c_0" = .ok (stateSettled, false) ∧
    (check_violations stateSettled 2592100 "c_9" =
        .error .CommitmentNotFound ∧
      get_violation_details stateSettled 2592100 "c_9" =
        .error .CommitmentNotFound) ∧
    get_violation_details stateSettled 2592100 "c_0" =
      .ok (violationTupleOf { commitmentEx with status := "settled" } 2592100) := by
  have h := violations_status_handling stateSettled 2592100 "c_0"
    { commitmentEx with status := "settled" }
  have h9 := violations_status_handling stateSettled 2592100 "c_9" commitmentEx
  exact ⟨h.1 (by decide) (by decide), h9.2.1 (by decide), h.2.2 (by decide)⟩

/-- C5 counterexample: at `amount = 1000`, `current_value = 1001` the code
computes loss percent `0` (`i128` division truncates toward zero), while
`floor((amount − current_value) × 100 / amount) = −1`, so the claimed floor
formula does not describe the code. -/
theorem loss_percent_floor_counterexample :
    get_violation_details stateGain 150 "c_0" =
      .ok (false, false, false, 0, 2591950) ∧
    Int.fdiv ((1000 - 1001) * 100) 1000 = -1 ∧ (0 : Int) ≠ -1 := by decide

/-- C5 amended: the loss percentage is `(amount − current_value) × 100 /
amount` computed in wide signed integers with division truncating toward
zero when `amount > 0` — which agrees with the floor whenever
`current_value ≤ amount` — and is exactly `0` when `amount = 0`; in
particular `loss_percent(1000, 900) = 10` and `loss_percent(0, 0) = 0`. -/
theorem loss_percent_truncating (s : ContractState) (now : Nat) (id : String)
    (c : Commitment) (h : lookupC s.commitments id = some c) :
    (∃ r, get_violation_details s now id = .ok r ∧
      r.2.2.2.1 = lossPercentOf c) ∧
    (0 < c.amount →
      lossPercentOf c = Int.tdiv ((c.amount - c.current_value) * 100) c.amount) ∧
    (0 < c.amount → c.current_value ≤ c.amount →
      lossPercentOf c = Int.fdiv ((c.amount - c.current_value) * 100) c.amount) ∧
    (c.amount = 0 → lossPercentOf c = 0) ∧
    lossPercentOf { c with amount := 1000, current_value := 900 } = 10 ∧
    SafeMath_loss_percent 1000 900 = 10 ∧
    lossPercentOf { c with amount := 0, current_value := 0 } = 0 := by
  refine ⟨⟨violationTupleOf c now, get_violation_details_eval s now id c h, rfl⟩,
    ?_, ?_, ?_, rfl, by decide, rfl⟩
  · intro hpos
    simp [lossPercentOf, hpos]
  · intro hpos hle
    have hnum : (0 : Int) ≤ (c.amount - c.current_value) * 100 := by
      have : (0 : Int) ≤ c.amount - c.current_value := by omega
      positivity
    have hden : (0 : Int) ≤ c.amount := le_of_lt hpos
    rw [lossPercentOf, if_pos hpos, Int.tdiv_eq_ediv hnum hden,
      Int.fdiv_eq_ediv _ hden]
  · intro h0
    simp [lossPercentOf, h0]

/-- Witness for C5 (amended) on `stateLoss` (`amount = 1000`,
`current_value = 900`): the reported loss percent is 10 and the truncating
and floor divisions agree. -/
theorem loss_percent_truncating_witness :
    (∃ r, get_violation_details stateLoss 150 "c_0" = .ok r ∧
      r.2.2.2.1 = lossPercentOf { commitmentEx with current_value := 900 }) ∧
    lossPercentOf { commitmentEx with current_value := 900 } =
      Int.tdiv ((1000 - 900) * 100) 1000 ∧
    lossPercentOf { commitmentEx with current_value := 900 } =
      Int.fdiv ((1000 - 900) * 100) 1000 ∧
    SafeMath_loss_percent 1000 900 = 10 := by
  have h := loss_percent_truncating stateLoss 150 "c_0"
    { commitmentEx with current_value := 900 } (by decide)
  exact ⟨h.1, h.2.1 (by decide), h.2.2.1 (by decide) (by decide),
    h.2.2.2.2.2.1⟩

/-! ### C1: counters and the TVL invariant -/

theorem ledgerInv_initializeState (admin nft : Nat) :
    LedgerInv (initializeState admin nft) := by
  refine ⟨?_, rfl⟩
  intro p hp
  simp [initializeState] at hp

theorem ledgerInv_create_tx (s : ContractState) (now owner : Nat)
    (amount : Int) (asset : Nat) (rules : CommitmentRules) (rateOk : Bool)
    (hInv : LedgerInv s) :
    LedgerInv (create_commitment_tx s now owner amount asset rules rateOk).1 := by
  cases hc : create_commitment s now owner amount asset rules rateOk with
  | error e =>
    have heq : create_commitment_tx s now owner amount asset rules rateOk =
        (s, .error e) := by simp [create_commitment_tx, hc]
    rw [heq]
    exact hInv
  | ok p =>
    obtain ⟨s1, id⟩ := p
    have heq : create_commitment_tx s now owner amount asset rules rateOk =
        (s1, .ok id) := by simp [create_commitment_tx, hc]
    rw [heq]
    obtain ⟨_, _, _, _, hid, hfresh, hs1⟩ :=
      create_commitment_ok_inv _ _ _ _ _ _ _ _ _ hc
    subst hs1
    have hfresh' : lookupC s.commitments
        (Commitment.mk id owner 0 rules amount asset now
          (now + rules.duration_days * 86400) amount "active").commitment_id =
        none := hfresh
    refine ⟨keysConsistent_storeC _ _ hInv.1, ?_⟩
    show s.totalValueLocked + amount = activeSum (storeC s.commitments _)
    rw [activeSum_storeC_fresh _ _ hfresh', ← hInv.2]
    simp

theorem ledgerInv_settle_tx (s : ContractState) (now : Nat) (id : String)
    (hInv : LedgerInv s) : LedgerInv (settle_tx s now id).1 := by
  cases hc : settle s now id with
  | error e =>
    have heq : settle_tx s now id = (s, .error e) := by simp [settle_tx, hc]
    rw [heq]
    exact hInv
  | ok s1 =>
    have heq : settle_tx s now id = (s1, .ok ()) := by simp [settle_tx, hc]
    rw [heq]
    obtain ⟨hg, he, c, hl, hstat, hexp, hnft, hs1⟩ := settle_ok_inv _ _ _ _ hc
    subst hs1
    have hcid : c.commitment_id = id := lookupC_keysConsistent _ _ _ hInv.1 hl
    have hcid' : (Commitment.mk c.commitment_id c.owner c.nft_token_id c.rules
        c.amount c.asset_address c.created_at c.expires_at c.current_value
        "settled").commitment_id = id := hcid
    refine ⟨keysConsistent_storeC _ _ hInv.1, ?_⟩
    show s.totalValueLocked - c.current_value =
      activeSum (storeC s.commitments _)
    rw [activeSum_storeC_of_lookup _ _ c _ hl hcid', ← hInv.2]
    simp [hstat]

theorem ledgerInv_applyTx (s : ContractState) (op : Op) (hInv : LedgerInv s) :
    LedgerInv (applyTx s op) := by
  cases op with
  | createOp now owner amount asset rules rateOk =>
    exact ledgerInv_create_tx s now owner amount asset rules rateOk hInv
  | settleOp now id => exact ledgerInv_settle_tx s now id hInv

theorem ledgerInv_run (s : ContractState) (ops : List Op)
    (hInv : LedgerInv s) : LedgerInv (run s ops) := by
  induction ops generalizing s with
  | nil => exact hInv
  | cons op rest ih => exact ih _ (ledgerInv_applyTx s op hInv)

theorem runCreates_total (args : List CreateArgs) : ∀ s s' : ContractState,
    runCreates s args = .ok s' →
    s'.totalCommitments = s.totalCommitments + args.length := by
  induction args with
  | nil =>
    intro s s' h
    simp only [runCreates, Except.ok.injEq] at h
    subst h
    simp
  | cons a rest ih =>
    intro s s' h
    cases hc : create_commitment s a.now a.owner a.amount a.asset a.rules
        a.rateOk with
    | error e =>
      simp only [runCreates, hc] at h
      exact Except.noConfusion h
    | ok p =>
      obtain ⟨s1, id⟩ := p
      simp only [runCreates, hc] at h
      have h1 := ih s1 s' h
      obtain ⟨_, _, _, _, _, _, hs1⟩ :=
        create_commitment_ok_inv _ _ _ _ _ _ _ _ _ hc
      have h2 : s1.totalCommitments = s.totalCommitments + 1 := by rw [hs1]
      rw [h1, h2, List.length_cons]
      omega

/-- C1: starting from a freshly initialized ledger, a batch of N successful
`create_commitment` calls leaves `get_total_commitments` equal to N; and
after any interleaving of `create_commitment` and `settle` transactions
(each either succeeding or rolling back), `get_total_value_locked` equals
the sum of `current_value` over the stored commitments whose status is
`"active"`. -/
theorem totals_and_tvl_invariant (admin nft : Nat) (args : List CreateArgs)
    (s' : ContractState) (ops : List Op)
    (h : runCreates (initializeState admin nft) args = .ok s') :
    get_total_commitments s' = args.length ∧
    get_total_value_locked (run (initializeState admin nft) ops) =
      activeSum (run (initializeState admin nft) ops).commitments := by
  constructor
  · have htot := runCreates_total args _ _ h
    simpa [get_total_commitments, initializeState] using htot
  · exact (ledgerInv_run (initializeState admin nft) ops
      (ledgerInv_initializeState admin nft)).2

/-- Witness for C1: one successful creation gives count 1, and the invariant
holds after the concrete mixed trace `opsEx` (create, settle, failed repeat
settle, create). -/
theorem totals_and_tvl_invariant_witness :
    get_total_commitments stateEx = argsEx1.length ∧
    get_total_value_locked (run (initializeState 1 2) opsEx) =
      activeSum (run (initializeState 1 2) opsEx).commitments :=
  totals_and_tvl_invariant 1 2 argsEx1 stateEx opsEx (by decide)

end CommitmentCore
